import Mathlib

/-!
Shallow embedding of `lib/saq/anp.py` (ACE Network Protocol): the framing
codec (`ANPSocket`), the message registry (`ANPMessage` subclasses and
`ANP_CLASS_LOOKUP`), and the per-connection serving loop of
`ACENetworkProtocolServer`.

A socket stream is modelled as the `List Nat` of bytes the peer sends before
closing the connection.  A call `self.s.recv(chunk_size)` returns some
non-empty prefix of the remaining stream of length at most `chunk_size`, or
the empty string once the stream is exhausted (peer closed).  The number of
bytes the kernel actually hands back at each `recv` is nondeterministic, so
`read_n_bytes` is parameterised by a *schedule*: one entry per `recv` call,
bounding how many bytes that call returns.  The deterministic `readN`
instantiates the schedule with `io.DEFAULT_BUFFER_SIZE` at every step, which
models the common case of a peer that has already sent the whole stream
(every `recv` returns as much as is asked for and available).
-/

deriving instance DecidableEq for Except

namespace ANP

/-- `io.DEFAULT_BUFFER_SIZE` in CPython. -/
def DEFAULT_BUFFER_SIZE : Nat := 8192

/-- `DEFAULT_CHUNK_SIZE = 256 * 1024` in `anp.py`. -/
def DEFAULT_CHUNK_SIZE : Nat := 256 * 1024

/-- `DEFAULT_PORT = 41433`. -/
def DEFAULT_PORT : Nat := 41433

/-- Python exceptions that can escape the codec layer.  `anpTruncated` and
`anpUnknown` are both `ANPException` in the source (with different messages);
the others are built-in Python exceptions raised by the code paths they
name. -/
inductive PyErr where
  /-- `ANPException("expected N more bytes but got end of stream")`. -/
  | anpTruncated (bytesLeft : Nat)
  /-- `ANPException("unknown command N")`. -/
  | anpUnknown (command : Nat)
  /-- `struct.error` from `struct.unpack` on a buffer of the wrong size. -/
  | structError
  /-- `TypeError`, e.g. `decrypt_chunk(None)`, `fp.write(None)`,
  `os.path.join(saq.SAQ_HOME, None)`, or `socket.shutdown()` without its
  required argument. -/
  | typeError
  /-- `AttributeError`, e.g. `None.encode('utf16')`. -/
  | attributeError
  /-- `AssertionError` from `assert count`. -/
  | assertionError
  /-- `UnicodeDecodeError` from `bytes.decode('utf16')`. -/
  | unicodeError
  /-- Model artifact: the schedule ran out while the loop was still blocked
  waiting on `recv` (the peer stalls forever).  Never a Python exception. -/
  | stalled
  deriving DecidableEq

/-- Outcome of `ANPSocket.read_n_bytes`. -/
inductive ReadN where
  /-- `return None  # socket closed normally` (close before any byte). -/
  | closed
  /-- `ANPException` raised: close after some but not all bytes. -/
  | truncated (bytesLeft : Nat)
  /-- The schedule ran out with the loop still waiting (peer stalls). -/
  | blocked
  /-- `assert count` failed (`count == 0`). -/
  | assertFail
  /-- `return bytes(byte_buffer)` together with the unread rest of stream. -/
  | ok (data rest : List Nat)
  deriving DecidableEq

/-- `chunk_size = io.DEFAULT_BUFFER_SIZE if io.DEFAULT_BUFFER_SIZE < count
else count` — note the source computes it from `count`, never from
`bytes_left`. -/
def chunkSizeFor (count : Nat) : Nat :=
  if DEFAULT_BUFFER_SIZE < count then DEFAULT_BUFFER_SIZE else count

/-- The `while bytes_read < count` loop of `read_n_bytes`.  `acc` is the
contents of `byte_buffer` (the slice assignment
`byte_buffer[bytes_read:bytes_read + count] = data` always appends `data` at
offset `bytes_read`, because after the first assignment the buffer's length
equals `bytes_read`; the first assignment replaces the whole zero-filled
buffer).  Each schedule entry bounds the bytes the corresponding `recv`
returns. -/
def read_n_bytes_loop (count : Nat) : List Nat → List Nat → List Nat → ReadN
  | [], stream, acc =>
      if count ≤ acc.length then .ok acc stream else .blocked
  | k :: sched, stream, acc =>
      if count ≤ acc.length then .ok acc stream
      else if (stream.take (min k (chunkSizeFor count))).length = 0 then
        if acc.length = 0 then .closed else .truncated (count - acc.length)
      else
        read_n_bytes_loop count sched
          (stream.drop (stream.take (min k (chunkSizeFor count))).length)
          (acc ++ stream.take (min k (chunkSizeFor count)))

/-- `ANPSocket.read_n_bytes(count)` under a given `recv` schedule. -/
def read_n_bytes (count : Nat) (sched : List Nat) (stream : List Nat) : ReadN :=
  if count = 0 then .assertFail
  else read_n_bytes_loop count sched stream []

/-- The schedule of a peer that has already sent the whole stream: every
`recv` returns as many bytes as are asked for and available.  `count`
entries always suffice, since every successful iteration reads at least one
byte. -/
def eagerSched (count : Nat) : List Nat := List.replicate count DEFAULT_BUFFER_SIZE

/-- Deterministic `read_n_bytes` against a fully-buffered peer. -/
def readN (count : Nat) (stream : List Nat) : ReadN :=
  read_n_bytes count (eagerSched count) stream

/-- `struct.unpack('!I', data)[0]`: big-endian accumulation of a byte list. -/
def beUint : List Nat → Nat := List.foldl (fun a b => a * 256 + b) 0

/-- `struct.pack('!I', v)` for `v < 2^32` (the source raises `struct.error`
above that bound; all values in this development stay below it).  The
literals are `2^24`, `2^16`, `2^8`. -/
def encodeUint32 (v : Nat) : List Nat :=
  [v / 16777216 % 256, v / 65536 % 256, v / 256 % 256, v % 256]

/-- `ANPSocket.read_uint`: `None` is a legal value (stream closed at the
boundary), errors are Python exceptions. -/
def read_uint (stream : List Nat) : Except PyErr (Option Nat × List Nat) :=
  match readN 4 stream with
  | .closed => .ok (none, stream)
  | .truncated n => .error (.anpTruncated n)
  | .blocked => .error .stalled
  | .assertFail => .error .assertionError
  | .ok data rest =>
      if data.length = 4 then .ok (some (beUint data), rest) else .error .structError

/-- Truthiness of `saq.ENCRYPTION_PASSWORD` (`if saq.ENCRYPTION_PASSWORD:`
in `write_data`): `None` and the empty string are falsy. -/
def pyTruthy : Option String → Bool
  | none => false
  | some s => decide (s ≠ "")

/-- `ANPSocket.read_data`.  `pw` is `saq.ENCRYPTION_PASSWORD`, `dec` is
`saq.crypto.decrypt_chunk` (an external collaborator).  A `None` from
`read_n_bytes` after the length prefix is returned as the value when
encryption is off, and raises `TypeError` (`decrypt_chunk(None)`) when it is
on; the decision uses `is None`, unlike `write_data`'s truthiness test. -/
def read_data (pw : Option String) (dec : List Nat → List Nat)
    (stream : List Nat) : Except PyErr (Option (List Nat) × List Nat) :=
  match read_uint stream with
  | .error e => .error e
  | .ok (none, rest) => .ok (none, rest)
  | .ok (some dl, rest) =>
      if dl = 0 then .ok (some [], rest)
      else
        match readN dl rest with
        | .closed => if pw.isSome then .error .typeError else .ok (none, rest)
        | .truncated m => .error (.anpTruncated m)
        | .blocked => .error .stalled
        | .assertFail => .error .assertionError
        | .ok data rest2 =>
            if pw.isSome then .ok (some (dec data), rest2) else .ok (some data, rest2)

/-- UTF-16 code units of one Unicode code point (surrogate pair above
`0x10000`), as produced by Python's `str.encode('utf16')`. -/
def utf16Units (c : Nat) : List Nat :=
  if c < 0x10000 then [c]
  else [0xD800 + (c - 0x10000) / 0x400, 0xDC00 + (c - 0x10000) % 0x400]

/-- Little-endian byte serialisation of UTF-16 code units. -/
def utf16LEBytes (units : List Nat) : List Nat :=
  units.flatMap fun u => [u % 256, u / 256 % 256]

/-- Python `s.encode('utf16')` on a little-endian platform: a BOM followed by
UTF-16-LE code units.  A Python string is modelled as its list of Unicode
code points. -/
def pyEncodeUtf16 (s : List Nat) : List Nat :=
  [0xFF, 0xFE] ++ utf16LEBytes (s.flatMap utf16Units)

/-- Pair up little-endian byte pairs into 16-bit units; an odd trailing byte
is a `UnicodeDecodeError`. -/
def pairLE : List Nat → Except PyErr (List Nat)
  | [] => .ok []
  | [_] => .error .unicodeError
  | b0 :: b1 :: rest =>
      match pairLE rest with
      | .error e => .error e
      | .ok us => .ok ((b1 * 256 + b0) :: us)

/-- Pair up big-endian byte pairs into 16-bit units. -/
def pairBE : List Nat → Except PyErr (List Nat)
  | [] => .ok []
  | [_] => .error .unicodeError
  | b0 :: b1 :: rest =>
      match pairBE rest with
      | .error e => .error e
      | .ok us => .ok ((b0 * 256 + b1) :: us)

/-- Combine surrogate pairs into code points; a lone or misordered surrogate
is a `UnicodeDecodeError`. -/
def combineSurrogates : List Nat → Except PyErr (List Nat)
  | [] => .ok []
  | u :: rest =>
      if u < 0xD800 || decide (0xE000 ≤ u) then
        match combineSurrogates rest with
        | .error e => .error e
        | .ok cs => .ok (u :: cs)
      else if u < 0xDC00 then
        match rest with
        | [] => .error .unicodeError
        | u2 :: rest2 =>
            if 0xDC00 ≤ u2 && u2 < 0xE000 then
              match combineSurrogates rest2 with
              | .error e => .error e
              | .ok cs => .ok ((0x10000 + (u - 0xD800) * 0x400 + (u2 - 0xDC00)) :: cs)
            else .error .unicodeError
      else .error .unicodeError

/-- Python `bytes.decode('utf16')`: consume a BOM when present (defaulting to
the platform's little-endian order without one), pair bytes into units,
combine surrogates. -/
def pyDecodeUtf16 (b : List Nat) : Except PyErr (List Nat) :=
  match b with
  | 0xFF :: 0xFE :: rest =>
      match pairLE rest with
      | .error e => .error e
      | .ok us => combineSurrogates us
  | 0xFE :: 0xFF :: rest =>
      match pairBE rest with
      | .error e => .error e
      | .ok us => combineSurrogates us
  | other =>
      match pairLE other with
      | .error e => .error e
      | .ok us => combineSurrogates us

/-- `ANPSocket.read_string`. -/
def read_string (pw : Option String) (dec : List Nat → List Nat)
    (stream : List Nat) : Except PyErr (Option (List Nat) × List Nat) :=
  match read_data pw dec stream with
  | .error e => .error e
  | .ok (none, rest) => .ok (none, rest)
  | .ok (some bs, rest) =>
      match pyDecodeUtf16 bs with
      | .error e => .error e
      | .ok s => .ok (some s, rest)

/-- The `while True` loop of `ANPSocket.read_chunked_data`, with fuel (each
continuing iteration consumes at least 4 bytes of the stream, so
`stream.length + 1` fuel always suffices).  `sink` is the bytes written to
`fp` so far.  A `None` chunk (stream closed at a block boundary) is *not*
equal to `LAST_CHUNK`, so the code falls through to `fp.write(None)`, a
`TypeError`. -/
def read_chunked_loop (pw : Option String) (dec : List Nat → List Nat) :
    Nat → List Nat → List Nat → Except PyErr (List Nat × List Nat)
  | 0, _, _ => .error .stalled
  | fuel + 1, stream, sink =>
      match read_data pw dec stream with
      | .error e => .error e
      | .ok (none, _) => .error .typeError
      | .ok (some [], rest) => .ok (sink, rest)
      | .ok (some (c :: cs), rest) =>
          read_chunked_loop pw dec fuel rest (sink ++ c :: cs)

/-- `ANPSocket.read_chunked_data(fp)`: returns the bytes written to `fp` and
the unread rest of the stream. -/
def read_chunked_data (pw : Option String) (dec : List Nat → List Nat)
    (stream : List Nat) : Except PyErr (List Nat × List Nat) :=
  read_chunked_loop pw dec (stream.length + 1) stream []

/-- `ANPSocket.write_uint` (via `write_n_bytes`, whose loop sends every byte
of its buffer in order, exactly once). -/
def write_uint (v : Nat) : List Nat := encodeUint32 v

/-- `ANPSocket.write_data`: encrypt first when `saq.ENCRYPTION_PASSWORD` is
truthy, then write the length of the (possibly encrypted) payload, then the
payload. -/
def write_data (pw : Option String) (enc : List Nat → List Nat)
    (value : List Nat) : List Nat :=
  let v := if pyTruthy pw then enc value else value
  write_uint v.length ++ v

/-- `ANPSocket.write_string`. -/
def write_string (pw : Option String) (enc : List Nat → List Nat)
    (s : List Nat) : List Nat :=
  write_data pw enc (pyEncodeUtf16 s)

/-- The `while True` loop of `ANPSocket.write_chunked_data`, with fuel (each
continuing iteration consumes at least one byte of the remaining data, so
`data.length + 1` fuel always suffices; fuel exhaustion is a model artifact
that never occurs). -/
def write_chunked_loop (pw : Option String) (enc : List Nat → List Nat) :
    Nat → List Nat → List Nat
  | 0, _ => []
  | fuel + 1, data =>
      if (data.take DEFAULT_CHUNK_SIZE).length = 0 then
        write_data pw enc (data.take DEFAULT_CHUNK_SIZE)
      else
        write_data pw enc (data.take DEFAULT_CHUNK_SIZE)
          ++ write_chunked_loop pw enc fuel (data.drop DEFAULT_CHUNK_SIZE)

/-- `ANPSocket.write_chunked_data(fp)`: the file is modelled by its
contents.  Writes `DEFAULT_CHUNK_SIZE`-byte chunks of the data and stops
right after writing the first empty chunk (the terminator). -/
def write_chunked_data (pw : Option String) (enc : List Nat → List Nat)
    (data : List Nat) : List Nat :=
  write_chunked_loop pw enc (data.length + 1) data

/-- `ANP_COMMAND_EXIT = 1`. -/
def ANP_COMMAND_EXIT : Nat := 1

/-- `ANP_COMMAND_REGISTER = 2`. -/
def ANP_COMMAND_REGISTER : Nat := 2

/-- `ANP_COMMAND_OK = 3`. -/
def ANP_COMMAND_OK : Nat := 3

/-- `ANP_COMMAND_ERROR = 4`. -/
def ANP_COMMAND_ERROR : Nat := 4

/-- `ANP_COMMAND_PING = 5`. -/
def ANP_COMMAND_PING : Nat := 5

/-- `ANP_COMMAND_PONG = 6`. -/
def ANP_COMMAND_PONG : Nat := 6

/-- `ANP_COMMAND_AVAILABLE = 7`. -/
def ANP_COMMAND_AVAILABLE : Nat := 7

/-- `ANP_COMMAND_COPY_FILE = 8`. -/
def ANP_COMMAND_COPY_FILE : Nat := 8

/-- `ANP_COMMAND_PROCESS = 9`. -/
def ANP_COMMAND_PROCESS : Nat := 9

/-- `ANP_COMMAND_BUSY = 10`. -/
def ANP_COMMAND_BUSY : Nat := 10

/-- The ten `ANPMessage` subclasses, as a closed set of variant tags. -/
inductive MsgTag where
  | EXIT | REGISTER | OK | ERROR | PING | PONG | AVAILABLE | COPY_FILE | PROCESS | BUSY
  deriving DecidableEq

/-- The command id each subclass's `__init__` passes to
`ANPMessage.__init__` (the object's `command` attribute). -/
def MsgTag.commandId : MsgTag → Nat
  | .EXIT => ANP_COMMAND_EXIT
  | .REGISTER => ANP_COMMAND_REGISTER
  | .OK => ANP_COMMAND_OK
  | .ERROR => ANP_COMMAND_ERROR
  | .PING => ANP_COMMAND_PING
  | .PONG => ANP_COMMAND_PONG
  | .AVAILABLE => ANP_COMMAND_AVAILABLE
  | .COPY_FILE => ANP_COMMAND_COPY_FILE
  | .PROCESS => ANP_COMMAND_PROCESS
  | .BUSY => ANP_COMMAND_BUSY

/-- `ANP_CLASS_LOOKUP`: command id to message class; a missing key is a
`KeyError`, re-raised as `ANPException("unknown command ...")`. -/
def ANP_CLASS_LOOKUP (c : Nat) : Option MsgTag :=
  if c = ANP_COMMAND_EXIT then some .EXIT
  else if c = ANP_COMMAND_REGISTER then some .REGISTER
  else if c = ANP_COMMAND_OK then some .OK
  else if c = ANP_COMMAND_ERROR then some .ERROR
  else if c = ANP_COMMAND_PING then some .PING
  else if c = ANP_COMMAND_PONG then some .PONG
  else if c = ANP_COMMAND_AVAILABLE then some .AVAILABLE
  else if c = ANP_COMMAND_COPY_FILE then some .COPY_FILE
  else if c = ANP_COMMAND_PROCESS then some .PROCESS
  else if c = ANP_COMMAND_BUSY then some .BUSY
  else none

/-- A message object as produced by `recv_message`: string fields hold what
`read_string` returned (possibly `None`), and `COPY_FILE` additionally
records the bytes its `recv_parameters` wrote to the destination file. -/
inductive RecvMessage where
  | EXIT
  | REGISTER
  | OK
  | BUSY
  | AVAILABLE
  | ERROR (error_message : Option (List Nat))
  | PING (message : Option (List Nat))
  | PONG (message : Option (List Nat))
  | PROCESS (target : Option (List Nat))
  | COPY_FILE (path : Option (List Nat)) (written : List Nat)
  deriving DecidableEq

/-- The `command` attribute of a received message object. -/
def RecvMessage.command : RecvMessage → Nat
  | .EXIT => ANP_COMMAND_EXIT
  | .REGISTER => ANP_COMMAND_REGISTER
  | .OK => ANP_COMMAND_OK
  | .BUSY => ANP_COMMAND_BUSY
  | .AVAILABLE => ANP_COMMAND_AVAILABLE
  | .ERROR _ => ANP_COMMAND_ERROR
  | .PING _ => ANP_COMMAND_PING
  | .PONG _ => ANP_COMMAND_PONG
  | .PROCESS _ => ANP_COMMAND_PROCESS
  | .COPY_FILE _ _ => ANP_COMMAND_COPY_FILE

/-- Each subclass's `recv_parameters`.  The no-payload variants inherit the
do-nothing default.  `COPY_FILE.recv_parameters` joins the received path
onto `saq.SAQ_HOME` (a `TypeError` when the path is `None`) and streams the
chunked data into the destination file, modelled by the `written` field. -/
def recv_parameters (pw : Option String) (dec : List Nat → List Nat)
    (tag : MsgTag) (stream : List Nat) : Except PyErr (RecvMessage × List Nat) :=
  match tag with
  | .EXIT => .ok (.EXIT, stream)
  | .REGISTER => .ok (.REGISTER, stream)
  | .OK => .ok (.OK, stream)
  | .BUSY => .ok (.BUSY, stream)
  | .AVAILABLE => .ok (.AVAILABLE, stream)
  | .ERROR =>
      match read_string pw dec stream with
      | .error e => .error e
      | .ok (s, rest) => .ok (.ERROR s, rest)
  | .PING =>
      match read_string pw dec stream with
      | .error e => .error e
      | .ok (s, rest) => .ok (.PING s, rest)
  | .PONG =>
      match read_string pw dec stream with
      | .error e => .error e
      | .ok (s, rest) => .ok (.PONG s, rest)
  | .PROCESS =>
      match read_string pw dec stream with
      | .error e => .error e
      | .ok (s, rest) => .ok (.PROCESS s, rest)
  | .COPY_FILE =>
      match read_string pw dec stream with
      | .error e => .error e
      | .ok (none, _) => .error .typeError
      | .ok (some p, rest) =>
          match read_chunked_data pw dec rest with
          | .error e => .error e
          | .ok (written, rest2) => .ok (.COPY_FILE (some p) written, rest2)

/-- `ANPSocket.recv_message`: read the 4-byte command id (`None` when the
stream closed cleanly before it), look the id up, then run the variant's
`recv_parameters`. -/
def recv_message (pw : Option String) (dec : List Nat → List Nat)
    (stream : List Nat) : Except PyErr (Option RecvMessage × List Nat) :=
  match read_uint stream with
  | .error e => .error e
  | .ok (none, rest) => .ok (none, rest)
  | .ok (some command, rest) =>
      match ANP_CLASS_LOOKUP command with
      | none => .error (.anpUnknown command)
      | some tag =>
          match recv_parameters pw dec tag rest with
          | .error e => .error e
          | .ok (m, rest2) => .ok (some m, rest2)

/-- A message as built locally for sending: string fields are actual
strings, and a `COPY_FILE` carries the contents of its local source file. -/
inductive SendMessage where
  | EXIT
  | REGISTER
  | OK
  | BUSY
  | AVAILABLE
  | ERROR (error_message : List Nat)
  | PING (message : List Nat)
  | PONG (message : List Nat)
  | PROCESS (target : List Nat)
  | COPY_FILE (path : List Nat) (contents : List Nat)
  deriving DecidableEq

/-- The `command` attribute of a locally built message. -/
def SendMessage.command : SendMessage → Nat
  | .EXIT => ANP_COMMAND_EXIT
  | .REGISTER => ANP_COMMAND_REGISTER
  | .OK => ANP_COMMAND_OK
  | .BUSY => ANP_COMMAND_BUSY
  | .AVAILABLE => ANP_COMMAND_AVAILABLE
  | .ERROR _ => ANP_COMMAND_ERROR
  | .PING _ => ANP_COMMAND_PING
  | .PONG _ => ANP_COMMAND_PONG
  | .PROCESS _ => ANP_COMMAND_PROCESS
  | .COPY_FILE _ _ => ANP_COMMAND_COPY_FILE

/-- Each subclass's `send_parameters` (`enc` is `encrypt_chunk`). -/
def send_parameters (pw : Option String) (enc : List Nat → List Nat) :
    SendMessage → List Nat
  | .EXIT => []
  | .REGISTER => []
  | .OK => []
  | .BUSY => []
  | .AVAILABLE => []
  | .ERROR s => write_string pw enc s
  | .PING s => write_string pw enc s
  | .PONG s => write_string pw enc s
  | .PROCESS s => write_string pw enc s
  | .COPY_FILE p contents => write_string pw enc p ++ write_chunked_data pw enc contents

/-- `ANPSocket.send_message`: the 4-byte command id, then the variant's
parameters. -/
def send_message (pw : Option String) (enc : List Nat → List Nat)
    (m : SendMessage) : List Nat :=
  write_uint m.command ++ send_parameters pw enc m

/-- Observable events of one connection's serving loop. -/
inductive Ev where
  /-- `recv_message` returned `None` (`tcp_client_execute` returns `False`,
  which `tcp_client_loop` ignores). -/
  | closedSentinel
  /-- A message was decoded (the `logging.info("received command ...")`
  line). -/
  | msg (m : RecvMessage)
  /-- The external command handler was invoked and returned normally. -/
  | handlerOk (m : RecvMessage)
  /-- The external command handler was invoked and raised; the exception is
  caught and logged inside `tcp_client_execute`. -/
  | handlerErr (m : RecvMessage)
  /-- `tcp_client_execute` raised (decode error); caught by
  `tcp_client_loop`, which logs a warning and breaks. -/
  | recvErr (e : PyErr)
  deriving DecidableEq

/-- `ACENetworkProtocolServer.tcp_client_execute`: decode one message and
dispatch it.  The command handler is modelled by the predicate
`handlerRaises` saying whether it raises on a given message.  The function's
`return False` results are invisible to the caller (which ignores them), so
only the events and the remaining stream are returned. -/
def tcp_client_execute (handlerRaises : RecvMessage → Bool) (pw : Option String)
    (dec : List Nat → List Nat) (stream : List Nat) :
    Except PyErr (List Ev × List Nat) :=
  match recv_message pw dec stream with
  | .error e => .error e
  | .ok (none, rest) => .ok ([.closedSentinel], rest)
  | .ok (some m, rest) =>
      if m.command = ANP_COMMAND_EXIT then .ok ([.msg m], rest)
      else if handlerRaises m then .ok ([.msg m, .handlerErr m], rest)
      else .ok ([.msg m, .handlerOk m], rest)

/-- The `while not socket_closed and not self.control_event.is_set()` loop of
`tcp_client_loop`.  `socket_closed` is assigned `False` once and never
updated (the `False` returned by `tcp_client_execute` is discarded), and the
control event stays clear during the traces considered here, so only an
exception exits the loop.  Returns the event trace and whether the loop
exited (`false` = fuel ran out with the loop still iterating). -/
def tcp_client_loop (handlerRaises : RecvMessage → Bool) (pw : Option String)
    (dec : List Nat → List Nat) : Nat → List Nat → List Ev × Bool
  | 0, _ => ([], false)
  | fuel + 1, stream =>
      match tcp_client_execute handlerRaises pw dec stream with
      | .error e => ([.recvErr e], true)
      | .ok (evs, rest) =>
          (evs ++ (tcp_client_loop handlerRaises pw dec fuel rest).1,
           (tcp_client_loop handlerRaises pw dec fuel rest).2)

/-- The client socket's teardown-relevant state. -/
structure SockState where
  shutdownDone : Bool
  closed : Bool
  deriving DecidableEq

/-- `client_socket.shutdown()` as written on the exit path of
`tcp_client_loop`: `socket.shutdown` requires its `how` argument, so the
zero-argument call raises `TypeError` before touching the socket. -/
def shutdown_noargs (_s : SockState) : Except PyErr SockState :=
  .error .typeError

/-- The teardown code after the loop: `try: client_socket.shutdown() except:
pass`.  No `close()` is ever called on the client socket here
(`ANPSocket.close_socket` exists but is not invoked by the worker). -/
def tcp_client_teardown (s : SockState) : SockState :=
  match shutdown_noargs s with
  | .error _ => s
  | .ok s2 => s2

/-- One connection worker: run the serving loop, then (when the loop has
exited) the teardown.  Returns the trace, whether the loop exited, and the
final socket state. -/
def tcp_client_worker (handlerRaises : RecvMessage → Bool) (pw : Option String)
    (dec : List Nat → List Nat) (fuel : Nat) (stream : List Nat)
    (sock : SockState) : (List Ev × Bool) × SockState :=
  let r := tcp_client_loop handlerRaises pw dec fuel stream
  (r, if r.2 then tcp_client_teardown sock else sock)

/-- The message `recv_message` produces when the peer closes right after the
command id of a string-payload variant: the `read_string` sentinel `None`
lands in the field. -/
def noneFieldMsg : MsgTag → RecvMessage
  | .EXIT => .EXIT
  | .REGISTER => .REGISTER
  | .OK => .OK
  | .BUSY => .BUSY
  | .AVAILABLE => .AVAILABLE
  | .ERROR => .ERROR none
  | .PING => .PING none
  | .PONG => .PONG none
  | .PROCESS => .PROCESS none
  | .COPY_FILE => .COPY_FILE none []

/-- The variants whose `recv_parameters` starts with `read_string`. -/
def stringTag : MsgTag → Bool
  | .ERROR => true
  | .PING => true
  | .PONG => true
  | .PROCESS => true
  | _ => false

/-- `send_parameters` invoked on a message object that came from
`recv_message` (the server echoes the same object back through
`send_message`).  A `None` string field raises `AttributeError`
(`None.encode('utf16')`); a received `COPY_FILE` has `source_path = None`,
so after writing its path block `open(None, 'rb')` raises `TypeError`.
Returns the bytes actually written and the error, if any. -/
def send_parameters_recv (pw : Option String) (enc : List Nat → List Nat) :
    RecvMessage → List Nat × Option PyErr
  | .EXIT => ([], none)
  | .REGISTER => ([], none)
  | .OK => ([], none)
  | .BUSY => ([], none)
  | .AVAILABLE => ([], none)
  | .ERROR none => ([], some .attributeError)
  | .ERROR (some s) => (write_string pw enc s, none)
  | .PING none => ([], some .attributeError)
  | .PING (some s) => (write_string pw enc s, none)
  | .PONG none => ([], some .attributeError)
  | .PONG (some s) => (write_string pw enc s, none)
  | .PROCESS none => ([], some .attributeError)
  | .PROCESS (some s) => (write_string pw enc s, none)
  | .COPY_FILE none _ => ([], some .attributeError)
  | .COPY_FILE (some p) _ => (write_string pw enc p, some .typeError)

/-- `ANPSocket.send_message` on a received message object: the 4-byte
command id goes out first, then whatever `send_parameters` manages to
write. -/
def send_message_recv (pw : Option String) (enc : List Nat → List Nat)
    (m : RecvMessage) : List Nat × Option PyErr :=
  (write_uint m.command ++ (send_parameters_recv pw enc m).1,
   (send_parameters_recv pw enc m).2)

/-- An 8193-byte file content used to exhibit the over-read: one byte more
than `io.DEFAULT_BUFFER_SIZE`. -/
def overContents : List Nat := List.replicate 8193 7

/-- The COPY_FILE message whose round trip fails: empty path, 8193-byte
content. -/
def overMsg : SendMessage := .COPY_FILE [] overContents

end ANP

namespace ANP

theorem read_n_bytes_loop_done {count : Nat} {sched : List Nat} {stream acc : List Nat}
    (h : count ≤ acc.length) :
    read_n_bytes_loop count sched stream acc = .ok acc stream := by
  cases sched <;> simp [read_n_bytes_loop, h]

/-- One continuing iteration of the `read_n_bytes` loop, for controlled
rewriting. -/
theorem read_n_bytes_loop_cons_step {count k : Nat} {sched : List Nat}
    {stream acc : List Nat} (hacc : ¬ count ≤ acc.length)
    (hne : ¬ (stream.take (min k (chunkSizeFor count))).length = 0) :
    read_n_bytes_loop count (k :: sched) stream acc =
      read_n_bytes_loop count sched
        (stream.drop (stream.take (min k (chunkSizeFor count))).length)
        (acc ++ stream.take (min k (chunkSizeFor count))) := by
  rw [read_n_bytes_loop, if_neg hacc, if_neg hne]

theorem chunkSizeFor_of_le {count : Nat} (h : count ≤ DEFAULT_BUFFER_SIZE) :
    chunkSizeFor count = count := by
  simp only [chunkSizeFor]
  rw [if_neg (by omega)]

/-- Against a fully-buffered peer, a read of `count ≤ 8192` bytes from a
stream holding at least `count` bytes returns exactly the first `count`
bytes: the first `recv` already returns everything asked for. -/
theorem readN_exact {count : Nat} {l rest : List Nat}
    (h1 : 1 ≤ count) (h2 : count ≤ DEFAULT_BUFFER_SIZE) (h3 : l.length = count) :
    readN count (l ++ rest) = .ok l rest := by
  obtain ⟨n, rfl⟩ : ∃ n, count = n + 1 := ⟨count - 1, by omega⟩
  unfold readN read_n_bytes eagerSched
  rw [if_neg (by omega), List.replicate_succ]
  simp only [read_n_bytes_loop, List.length_nil]
  rw [if_neg (by omega), chunkSizeFor_of_le h2, Nat.min_eq_right h2,
    List.take_left' h3, if_neg (by omega), List.nil_append, h3, List.drop_left' h3]
  exact read_n_bytes_loop_done (by omega)

/-- Reading from an already-closed (empty) stream returns the clean-close
sentinel. -/
theorem readN_closed {count : Nat} (h : 1 ≤ count) : readN count [] = .closed := by
  obtain ⟨n, rfl⟩ : ∃ n, count = n + 1 := ⟨count - 1, by omega⟩
  unfold readN read_n_bytes eagerSched
  rw [if_neg (by omega), List.replicate_succ]
  simp [read_n_bytes_loop]

/-- A stream that closes after some but fewer than `count ≤ 8192` bytes
raises the truncation `ANPException`. -/
theorem readN_short {count : Nat} {s : List Nat}
    (h0 : 1 ≤ s.length) (h1 : s.length < count) (h2 : count ≤ DEFAULT_BUFFER_SIZE) :
    readN count s = .truncated (count - s.length) := by
  obtain ⟨n, rfl⟩ : ∃ n, count = n + 1 := ⟨count - 1, by omega⟩
  obtain ⟨m, rfl⟩ : ∃ m, n = m + 1 := ⟨n - 1, by omega⟩
  unfold readN read_n_bytes eagerSched
  rw [if_neg (by omega), List.replicate_succ, List.replicate_succ]
  simp only [read_n_bytes_loop, chunkSizeFor_of_le h2, Nat.min_eq_right h2,
    List.length_nil, List.nil_append, List.take_of_length_le (Nat.le_of_lt h1),
    List.drop_length, List.take_nil]
  rw [if_neg (by omega), if_neg (by omega), if_neg (by omega)]
  simp only [if_true]
  rw [if_neg (by omega)]

theorem encodeUint32_length (v : Nat) : (encodeUint32 v).length = 4 := rfl

theorem beUint_encodeUint32 {v : Nat} (h : v < 2 ^ 32) :
    beUint (encodeUint32 v) = v := by
  simp only [beUint, encodeUint32, List.foldl]
  omega

theorem encodeUint32_beUint {a b c d : Nat}
    (ha : a < 256) (hb : b < 256) (hc : c < 256) (hd : d < 256) :
    encodeUint32 (beUint [a, b, c, d]) = [a, b, c, d] := by
  simp only [beUint, encodeUint32, List.foldl_cons, List.foldl_nil,
    List.cons.injEq, and_true]
  refine ⟨?_, ?_, ?_, ?_⟩ <;> omega

theorem beUint_four_lt {a b c d : Nat}
    (ha : a < 256) (hb : b < 256) (hc : c < 256) (hd : d < 256) :
    beUint [a, b, c, d] < 2 ^ 32 := by
  simp only [beUint, List.foldl_cons, List.foldl_nil]
  omega

theorem read_uint_append {l rest : List Nat} (h : l.length = 4) :
    read_uint (l ++ rest) = .ok (some (beUint l), rest) := by
  unfold read_uint
  rw [readN_exact (by omega) (by norm_num [DEFAULT_BUFFER_SIZE]) h]
  simp [h]

theorem read_uint_nil : read_uint [] = .ok (none, []) := by decide

theorem read_uint_short {s : List Nat} (h0 : 1 ≤ s.length) (h1 : s.length < 4) :
    read_uint s = .error (.anpTruncated (4 - s.length)) := by
  unfold read_uint
  rw [readN_short h0 h1 (by norm_num [DEFAULT_BUFFER_SIZE])]

/-- `read_data` on a well-formed block whose payload fits in one buffered
`recv` (`length ≤ 8192`): the payload is returned, decrypted exactly when
the password is not `None`. -/
theorem read_data_block {pw : Option String} {dec : List Nat → List Nat}
    {b rest : List Nat} (hb : b ≠ []) (hlen : b.length ≤ DEFAULT_BUFFER_SIZE)
    (h32 : b.length < 2 ^ 32) :
    read_data pw dec (encodeUint32 b.length ++ (b ++ rest))
      = .ok (some (if pw.isSome then dec b else b), rest) := by
  have hpos : 1 ≤ b.length := by
    cases b with
    | nil => exact absurd rfl hb
    | cons x xs => simp
  unfold read_data
  rw [read_uint_append (encodeUint32_length _), beUint_encodeUint32 h32]
  dsimp only
  rw [if_neg (by omega), readN_exact hpos hlen rfl]
  cases pw <;> simp

theorem read_data_zero {pw : Option String} {dec : List Nat → List Nat}
    {rest : List Nat} :
    read_data pw dec (encodeUint32 0 ++ rest) = .ok (some [], rest) := by
  unfold read_data
  rw [read_uint_append (encodeUint32_length _), beUint_encodeUint32 (by norm_num)]
  dsimp only
  rw [if_pos rfl]

theorem read_data_nil {pw : Option String} {dec : List Nat → List Nat} :
    read_data pw dec [] = .ok (none, []) := by
  unfold read_data
  rw [read_uint_nil]

theorem read_uint_exact {l : List Nat} (h : l.length = 4) :
    read_uint l = .ok (some (beUint l), []) := by
  have h2 := @read_uint_append l [] h
  rwa [List.append_nil] at h2

theorem read_data_err {pw : Option String} {dec : List Nat → List Nat}
    {stream : List Nat} {e : PyErr} (h : read_uint stream = .error e) :
    read_data pw dec stream = .error e := by
  unfold read_data
  rw [h]

theorem read_string_nil {pw : Option String} {dec : List Nat → List Nat} :
    read_string pw dec [] = .ok (none, []) := by
  unfold read_string
  rw [read_data_nil]

theorem read_string_err {pw : Option String} {dec : List Nat → List Nat}
    {stream : List Nat} {e : PyErr} (h : read_data pw dec stream = .error e) :
    read_string pw dec stream = .error e := by
  unfold read_string
  rw [h]

/-- The over-read at the heart of C4/C8: a buffered-peer read of 8193 bytes
from a stream holding `8193 + t.length` bytes (with `t.length ≤ 8191`)
consumes and returns the *whole* stream.  The first `recv` returns 8192
bytes; `chunk_size` is still computed from `count`, so the second `recv`
asks for 8192 again and swallows the trailing `t` along with the one byte
still owed. -/
theorem readN_8193_over (c : Nat) (t : List Nat) (ht : t.length ≤ 8191) :
    readN 8193 (List.replicate 8193 c ++ t) = .ok (List.replicate 8193 c ++ t) [] := by
  have hsched : eagerSched 8193
      = DEFAULT_BUFFER_SIZE :: DEFAULT_BUFFER_SIZE
          :: List.replicate 8191 DEFAULT_BUFFER_SIZE := rfl
  have hc : min DEFAULT_BUFFER_SIZE (chunkSizeFor 8193) = 8192 := by
    norm_num [chunkSizeFor, DEFAULT_BUFFER_SIZE]
  have htake1 : (List.replicate 8193 c ++ t).take 8192 = List.replicate 8192 c := by
    rw [List.take_append_of_le_length (by rw [List.length_replicate]; omega),
      List.take_replicate]
    norm_num
  have hdrop1 : (List.replicate 8193 c ++ t).drop 8192 = List.replicate 1 c ++ t := by
    rw [List.drop_append_of_le_length (by rw [List.length_replicate]; omega),
      List.drop_replicate]
  have htake2 : (List.replicate 1 c ++ t).take 8192 = List.replicate 1 c ++ t :=
    List.take_of_length_le
      (by rw [List.length_append, List.length_replicate]; omega)
  unfold readN read_n_bytes
  rw [if_neg (by omega), hsched]
  rw [read_n_bytes_loop_cons_step (by simp)
    (by rw [hc, htake1, List.length_replicate]; omega)]
  simp only [hc, htake1, List.length_replicate, List.nil_append, hdrop1]
  rw [read_n_bytes_loop_cons_step (by rw [List.length_replicate]; omega)
    (by rw [hc, htake2, List.length_append, List.length_replicate]; omega)]
  simp only [hc, htake2]
  rw [List.drop_length]
  rw [read_n_bytes_loop_done
    (by rw [List.length_append, List.length_append, List.length_replicate,
          List.length_replicate]; omega)]
  rw [← List.append_assoc, ← List.replicate_add]

/-- Characterisation of `read_uint` against a fully-buffered peer. -/
theorem read_uint_eq (stream : List Nat) :
    read_uint stream =
      if stream.length = 0 then .ok (none, stream)
      else if stream.length < 4 then .error (.anpTruncated (4 - stream.length))
      else .ok (some (beUint (stream.take 4)), stream.drop 4) := by
  by_cases h0 : stream.length = 0
  · rw [if_pos h0]
    rw [List.length_eq_zero] at h0
    subst h0
    exact read_uint_nil
  by_cases h1 : stream.length < 4
  · rw [if_neg h0, if_pos h1]
    exact read_uint_short (by omega) h1
  · rw [if_neg h0, if_neg h1]
    have hlen : (stream.take 4).length = 4 := by rw [List.length_take]; omega
    calc read_uint stream
        = read_uint (stream.take 4 ++ stream.drop 4) := by
          rw [List.take_append_drop]
      _ = .ok (some (beUint (stream.take 4)), stream.drop 4) :=
          read_uint_append hlen

/-- Dispatch form of `recv_message` on a stream beginning with an encoded
command id. -/
theorem recv_message_append {pw : Option String} {dec : List Nat → List Nat}
    {cmd : Nat} (hcmd : cmd < 2 ^ 32) (rest : List Nat) :
    recv_message pw dec (encodeUint32 cmd ++ rest) =
      match ANP_CLASS_LOOKUP cmd with
      | none => .error (.anpUnknown cmd)
      | some tag =>
          match recv_parameters pw dec tag rest with
          | .error e => .error e
          | .ok (m, rest2) => .ok (some m, rest2) := by
  unfold recv_message
  rw [read_uint_append (encodeUint32_length _), beUint_encodeUint32 hcmd]

/-- Every class the lookup table maps an id to stores that same id in its
`command` attribute. -/
theorem lookup_commandId {cmd : Nat} {t : MsgTag}
    (h : ANP_CLASS_LOOKUP cmd = some t) : t.commandId = cmd := by
  unfold ANP_CLASS_LOOKUP at h
  simp only [ANP_COMMAND_EXIT, ANP_COMMAND_REGISTER, ANP_COMMAND_OK,
    ANP_COMMAND_ERROR, ANP_COMMAND_PING, ANP_COMMAND_PONG,
    ANP_COMMAND_AVAILABLE, ANP_COMMAND_COPY_FILE, ANP_COMMAND_PROCESS,
    ANP_COMMAND_BUSY] at h
  repeat' split at h
  all_goals first
    | exact Option.noConfusion h
    | (injection h with h2
       subst h2
       simp only [MsgTag.commandId, ANP_COMMAND_EXIT, ANP_COMMAND_REGISTER,
         ANP_COMMAND_OK, ANP_COMMAND_ERROR, ANP_COMMAND_PING,
         ANP_COMMAND_PONG, ANP_COMMAND_AVAILABLE, ANP_COMMAND_COPY_FILE,
         ANP_COMMAND_PROCESS, ANP_COMMAND_BUSY]
       omega)

/-- Ids outside 1..10 are not in the lookup table. -/
theorem lookup_none {cmd : Nat} (h : ¬ (1 ≤ cmd ∧ cmd ≤ 10)) :
    ANP_CLASS_LOOKUP cmd = none := by
  unfold ANP_CLASS_LOOKUP
  simp only [ANP_COMMAND_EXIT, ANP_COMMAND_REGISTER, ANP_COMMAND_OK,
    ANP_COMMAND_ERROR, ANP_COMMAND_PING, ANP_COMMAND_PONG,
    ANP_COMMAND_AVAILABLE, ANP_COMMAND_COPY_FILE, ANP_COMMAND_PROCESS,
    ANP_COMMAND_BUSY]
  rw [if_neg (show ¬ cmd = 1 by omega), if_neg (show ¬ cmd = 2 by omega),
    if_neg (show ¬ cmd = 3 by omega), if_neg (show ¬ cmd = 4 by omega),
    if_neg (show ¬ cmd = 5 by omega), if_neg (show ¬ cmd = 6 by omega),
    if_neg (show ¬ cmd = 7 by omega), if_neg (show ¬ cmd = 8 by omega),
    if_neg (show ¬ cmd = 9 by omega), if_neg (show ¬ cmd = 10 by omega)]

/-- `recv_parameters` always builds the variant of the dispatched tag: the
`command` attribute of the result is the tag's id. -/
theorem recv_parameters_command {pw : Option String} {dec : List Nat → List Nat}
    {tag : MsgTag} {s : List Nat} {m : RecvMessage} {r : List Nat}
    (h : recv_parameters pw dec tag s = .ok (m, r)) :
    m.command = tag.commandId := by
  cases tag <;> simp only [recv_parameters] at h <;>
    (try split at h) <;>
    (try split at h) <;>
    first
      | exact Except.noConfusion h
      | (simp only [Except.ok.injEq, Prod.mk.injEq] at h
         obtain ⟨h1, h2⟩ := h
         subst h1
         rfl)

theorem encodeUint32_beUint_of_wf {l : List Nat} (hlen : l.length = 4)
    (hwf : ∀ b ∈ l, b < 256) :
    encodeUint32 (beUint l) = l := by
  match l, hlen with
  | [a, b, c, d], _ =>
      exact encodeUint32_beUint (hwf a (by simp)) (hwf b (by simp))
        (hwf c (by simp)) (hwf d (by simp))

/-- When the stream ends right after a string variant's command id,
`recv_parameters` completes with a `None` field. -/
theorem recv_parameters_string_nil {pw : Option String} {dec : List Nat → List Nat}
    {t : MsgTag} (h : stringTag t = true) :
    recv_parameters pw dec t [] = .ok (noneFieldMsg t, []) := by
  cases t <;> first
    | exact absurd h (by decide)
    | simp [recv_parameters, read_string_nil, noneFieldMsg]

/-- C3 (counterexample): the claim says that a peer that closes right after
the complete 4-byte command id of a payload-carrying variant (here PING = 5)
causes a `TruncatedStream` error.  In fact `recv_message` *succeeds*: each
nested `read_n_bytes` call treats close-before-any-byte as the clean-close
sentinel `None`, which propagates through `read_uint`/`read_data`/
`read_string` as a value, so the result is a PING message whose `message`
field is `None` — no exception at all. -/
theorem recv_ping_id_then_close_succeeds :
    recv_message none (fun b => b) [0, 0, 0, 5] = .ok (some (.PING none), []) := by
  decide

/-- C3 (amended): closing exactly after the complete command id of a
string-payload variant yields a successfully decoded message whose string
field is the `None` sentinel (no error); `TruncatedStream` is raised only
when the peer closes after *some but not all* bytes of a single fixed-size
read (e.g. mid-way through the 4-byte length prefix of the payload); and
closing before any byte of the next frame yields the no-message sentinel. -/
theorem recv_close_positions :
    ∀ (pw : Option String) (dec : List Nat → List Nat) (t : MsgTag) (s : List Nat),
      stringTag t = true →
      (recv_message pw dec (encodeUint32 t.commandId)
          = .ok (some (noneFieldMsg t), [])
        ∧ (1 ≤ s.length → s.length < 4 →
            recv_message pw dec (encodeUint32 t.commandId ++ s)
              = .error (.anpTruncated (4 - s.length)))
        ∧ recv_message pw dec [] = .ok (none, [])) := by
  intro pw dec t s ht
  have hlt : t.commandId < 2 ^ 32 := by cases t <;> decide
  have hlook : ANP_CLASS_LOOKUP t.commandId = some t := by cases t <;> decide
  refine ⟨?_, ?_, ?_⟩
  · have h2 := @recv_message_append pw dec t.commandId hlt []
    rw [List.append_nil] at h2
    rw [h2, hlook]
    dsimp only
    rw [recv_parameters_string_nil ht]
  · intro h1 h4
    have hrs : read_string pw dec s = .error (.anpTruncated (4 - s.length)) :=
      read_string_err (read_data_err (read_uint_short h1 h4))
    rw [recv_message_append hlt s, hlook]
    dsimp only
    cases t <;>
      first
        | exact absurd ht (by decide)
        | (simp only [recv_parameters]
           rw [hrs])
  · unfold recv_message
    rw [read_uint_nil]

/-- C3 (witness): instance of the amended statement at PING with a 1-byte
remainder: the close lands mid-way through the payload's length prefix and
raises the truncation `ANPException`. -/
theorem recv_close_positions_witness :
    recv_message none (fun b => b) (encodeUint32 MsgTag.PING.commandId ++ [255])
      = .error (.anpTruncated 3) :=
  (recv_close_positions none (fun b => b) .PING [255] rfl).2.1 (by decide) (by decide)

/-- C7: an id outside the fixed set 1..10 read from the wire makes
`recv_message` raise the unknown-command `ANPException`, and every id of the
set resolves through `ANP_CLASS_LOOKUP` to exactly the variant the wire
contract assigns it (EXIT=1, REGISTER=2, OK=3, ERROR=4, PING=5, PONG=6,
AVAILABLE=7, COPY_FILE=8, PROCESS=9, BUSY=10); moreover any successful
lookup carries the looked-up id in the variant's `command` attribute. -/
theorem recv_unknown_command_and_table :
    ∀ (pw : Option String) (dec : List Nat → List Nat) (cmd : Nat) (rest : List Nat),
      cmd < 2 ^ 32 →
      ((¬ (1 ≤ cmd ∧ cmd ≤ 10)) →
          recv_message pw dec (encodeUint32 cmd ++ rest) = .error (.anpUnknown cmd))
        ∧ (ANP_CLASS_LOOKUP ANP_COMMAND_EXIT = some .EXIT
            ∧ ANP_CLASS_LOOKUP ANP_COMMAND_REGISTER = some .REGISTER
            ∧ ANP_CLASS_LOOKUP ANP_COMMAND_OK = some .OK
            ∧ ANP_CLASS_LOOKUP ANP_COMMAND_ERROR = some .ERROR
            ∧ ANP_CLASS_LOOKUP ANP_COMMAND_PING = some .PING
            ∧ ANP_CLASS_LOOKUP ANP_COMMAND_PONG = some .PONG
            ∧ ANP_CLASS_LOOKUP ANP_COMMAND_AVAILABLE = some .AVAILABLE
            ∧ ANP_CLASS_LOOKUP ANP_COMMAND_COPY_FILE = some .COPY_FILE
            ∧ ANP_CLASS_LOOKUP ANP_COMMAND_PROCESS = some .PROCESS
            ∧ ANP_CLASS_LOOKUP ANP_COMMAND_BUSY = some .BUSY)
        ∧ (∀ t : MsgTag, ANP_CLASS_LOOKUP cmd = some t → t.commandId = cmd) := by
  intro pw dec cmd rest hcmd
  refine ⟨?_, by decide, fun t h => lookup_commandId h⟩
  intro hout
  rw [recv_message_append hcmd, lookup_none hout]

/-- C7 (witness): instance at the spec's own example id 9999. -/
theorem recv_unknown_command_witness :
    recv_message none (fun b => b) (encodeUint32 9999 ++ [0])
      = .error (.anpUnknown 9999) :=
  (recv_unknown_command_and_table none (fun b => b) 9999 [0] (by norm_num)).1
    (by omega)

/-- C10: a message produced by `recv_message` carries, in its `command`
attribute, exactly the id that was read from the first four wire bytes
(every class the table maps an id to stores that id), so re-encoding it
through `send_message` writes the same 4-byte command id the message was
received with. -/
theorem recv_then_send_same_command_id :
    ∀ (pw pw2 : Option String) (enc dec : List Nat → List Nat) (stream : List Nat)
      (m : RecvMessage) (rest : List Nat),
      (∀ b ∈ stream, b < 256) →
      recv_message pw dec stream = .ok (some m, rest) →
      m.command = beUint (stream.take 4)
        ∧ (send_message_recv pw2 enc m).1.take 4 = stream.take 4 := by
  intro pw pw2 enc dec stream m rest hwf hrecv
  unfold recv_message at hrecv
  rw [read_uint_eq stream] at hrecv
  by_cases h0 : stream.length = 0
  · rw [if_pos h0] at hrecv
    exact absurd hrecv (by simp)
  by_cases h1 : stream.length < 4
  · rw [if_neg h0, if_pos h1] at hrecv
    exact absurd hrecv (by simp)
  rw [if_neg h0, if_neg h1] at hrecv
  dsimp only at hrecv
  cases hlk : ANP_CLASS_LOOKUP (beUint (stream.take 4)) with
  | none =>
      rw [hlk] at hrecv
      exact absurd hrecv (by simp)
  | some tag =>
      rw [hlk] at hrecv
      dsimp only at hrecv
      cases hrp : recv_parameters pw dec tag (stream.drop 4) with
      | error e =>
          rw [hrp] at hrecv
          exact absurd hrecv (by simp)
      | ok pr =>
          obtain ⟨m2, r2⟩ := pr
          rw [hrp] at hrecv
          simp only [Except.ok.injEq, Prod.mk.injEq, Option.some.injEq] at hrecv
          obtain ⟨rfl, rfl⟩ := hrecv
          have hcmd : m2.command = beUint (stream.take 4) := by
            rw [recv_parameters_command hrp, lookup_commandId hlk]
          refine ⟨hcmd, ?_⟩
          unfold send_message_recv write_uint
          rw [List.take_left' (encodeUint32_length _), hcmd]
          exact encodeUint32_beUint_of_wf
            (by rw [List.length_take]; omega)
            (fun b hb => hwf b (List.take_subset _ _ hb))

/-- C10 (witness): instance on the concrete wire bytes of PING "x": the
received message re-encodes under command id 5, the id it arrived with. -/
theorem recv_then_send_same_command_id_witness :
    (RecvMessage.PING (some [120])).command
        = beUint (([0, 0, 0, 5, 0, 0, 0, 4, 255, 254, 120, 0] : List Nat).take 4)
      ∧ (send_message_recv none (fun b => b) (.PING (some [120]))).1.take 4
        = ([0, 0, 0, 5, 0, 0, 0, 4, 255, 254, 120, 0] : List Nat).take 4 :=
  recv_then_send_same_command_id none none (fun b => b) (fun b => b)
    [0, 0, 0, 5, 0, 0, 0, 4, 255, 254, 120, 0] (.PING (some [120])) []
    (by decide) (by decide)

/-- C1: the spec's state machine says that on EXIT (or on the no-message
sentinel) the serving loop transitions to `Closed` and never decodes another
message or invokes the handler again on that connection.  The code returns
`False` from `tcp_client_execute` in both cases, but `tcp_client_loop`
discards the return value and its `socket_closed` flag is never assigned
again, so the loop just keeps going.  Evaluating the embedded loop on a peer
that sends EXIT and then PING "x": after the EXIT the loop decodes the PING,
*invokes the handler on it*, then keeps polling the closed stream (the final
`false` means the loop is still iterating when the fuel runs out). -/
theorem serving_loop_continues_after_exit :
    tcp_client_loop (fun _ => false) none (fun b => b) 3
        ([0, 0, 0, 1] ++ [0, 0, 0, 5, 0, 0, 0, 4, 255, 254, 120, 0])
      = ([.msg .EXIT, .msg (.PING (some [120])), .handlerOk (.PING (some [120])),
          .closedSentinel], false) := by
  decide

/-- C6 (counterexample): the claim says a handler exception tears the
connection down (its serving loop exits).  With a handler that raises on
every message and a peer that sends PING "x" twice, the loop decodes and
dispatches the *second* PING after the first handler failure and is still
iterating at the end (`false`): the connection is not torn down. -/
theorem handler_failure_keeps_connection :
    tcp_client_loop (fun _ => true) none (fun b => b) 3
        ([0, 0, 0, 5, 0, 0, 0, 4, 255, 254, 120, 0]
          ++ [0, 0, 0, 5, 0, 0, 0, 4, 255, 254, 120, 0])
      = ([.msg (.PING (some [120])), .handlerErr (.PING (some [120])),
          .msg (.PING (some [120])), .handlerErr (.PING (some [120])),
          .closedSentinel], false) := by
  decide

/-- C6 (amended): a handler exception is caught and logged inside
`tcp_client_execute` and never escapes, so the server keeps running — but
the connection is *not* torn down: the serving loop records the failure and
continues with the rest of the same connection's stream. -/
theorem handler_exception_caught_loop_continues :
    ∀ (handlerRaises : RecvMessage → Bool) (pw : Option String)
      (dec : List Nat → List Nat) (fuel : Nat) (stream : List Nat)
      (m : RecvMessage) (rest : List Nat),
      recv_message pw dec stream = .ok (some m, rest) →
      m.command ≠ ANP_COMMAND_EXIT →
      handlerRaises m = true →
      tcp_client_loop handlerRaises pw dec (fuel + 1) stream
        = (.msg m :: .handlerErr m
            :: (tcp_client_loop handlerRaises pw dec fuel rest).1,
           (tcp_client_loop handlerRaises pw dec fuel rest).2) := by
  intro handlerRaises pw dec fuel stream m rest hrecv hexit hraise
  simp only [tcp_client_loop, tcp_client_execute]
  rw [hrecv]
  dsimp only
  rw [if_neg hexit, hraise]
  simp

/-- C6 (witness): instance on one raising PING: the loop logs the failure
and proceeds with the (empty) remainder of the stream. -/
theorem handler_exception_caught_loop_continues_witness :
    tcp_client_loop (fun _ => true) none (fun b => b) 1
        [0, 0, 0, 5, 0, 0, 0, 4, 255, 254, 120, 0]
      = (.msg (.PING (some [120])) :: .handlerErr (.PING (some [120]))
          :: (tcp_client_loop (fun _ => true) none (fun b => b) 0 []).1,
         (tcp_client_loop (fun _ => true) none (fun b => b) 0 []).2) :=
  handler_exception_caught_loop_continues (fun _ => true) none (fun b => b) 0
    [0, 0, 0, 5, 0, 0, 0, 4, 255, 254, 120, 0] (.PING (some [120])) []
    (by decide) (by decide) rfl

/-- C9: the claim says the client socket is closed on every exit path of the
serving loop.  The teardown code calls `client_socket.shutdown()` with no
argument — `socket.shutdown` requires its `how` argument, so this raises
`TypeError`, which the bare `except: pass` swallows — and never calls
`close()` at all (`ANPSocket.close_socket` is not invoked by the worker).
Evaluated on an exit path (a truncated command id makes `recv_message`
raise, breaking the loop): the loop exits (`true`) and the socket ends
neither shut down nor closed. -/
theorem socket_not_closed_on_loop_exit :
    tcp_client_worker (fun _ => false) none (fun b => b) 5 [0, 0] ⟨false, false⟩
      = (([.recvErr (.anpTruncated 2)], true), ⟨false, false⟩) := by
  decide

/-- C5 (counterexample): two concrete refutations of the claim's gating.
First, with a present secret (`"x"`) a received zero-length block is
returned empty *without* going through `decrypt` (here `decrypt` returns
`[9]`, so the claim would demand `some [9]`).  Second, with a present but
empty secret (`""`), `write_data`'s truthiness test skips `encrypt` (here
`encrypt` prepends a byte, so the claim would demand the 2-byte encrypted
block), while `read_data`'s `is None` test would still decrypt. -/
theorem encryption_gating_mismatch :
    (read_data (some "x") (fun _ => [9]) [0, 0, 0, 0] = .ok (some [], [])
        ∧ read_data (some "x") (fun _ => [9]) [0, 0, 0, 0] ≠ .ok (some [9], []))
      ∧ (write_data (some "") (fun l => 0 :: l) [1] = [0, 0, 0, 1, 1]
        ∧ write_data (some "") (fun l => 0 :: l) [1] ≠ [0, 0, 0, 2, 0, 1]) := by
  exact ⟨⟨by decide, by decide⟩, ⟨by decide, by decide⟩⟩

/-- C5 (amended): `write_data` encrypts the payload before measuring and
writing its length precisely when the secret is present *and non-empty*
(Python truthiness); `read_data` decrypts precisely when the secret is not
`None` *and* the received length prefix is positive (zero-length blocks are
returned empty undecrypted); the 4-byte length prefix is always sent in
clear ahead of the payload; with the secret absent neither side transforms
anything. -/
theorem block_encryption_characterisation :
    ∀ (pw : Option String) (s : String) (enc dec : List Nat → List Nat)
      (v b rest : List Nat),
      b ≠ [] → b.length ≤ DEFAULT_BUFFER_SIZE → b.length < 2 ^ 32 → s ≠ "" →
      (write_data none enc v = encodeUint32 v.length ++ v
        ∧ write_data (some "") enc v = encodeUint32 v.length ++ v
        ∧ write_data (some s) enc v = encodeUint32 (enc v).length ++ enc v
        ∧ read_data pw dec (encodeUint32 b.length ++ (b ++ rest))
            = .ok (some (if pw.isSome then dec b else b), rest)
        ∧ read_data pw dec (encodeUint32 0 ++ rest) = .ok (some [], rest)) := by
  intro pw s enc dec v b rest hb hlen h32 hs
  refine ⟨?_, ?_, ?_, read_data_block hb hlen h32, read_data_zero⟩
  · simp [write_data, pyTruthy, write_uint]
  · simp [write_data, pyTruthy, write_uint]
  · simp [write_data, pyTruthy, write_uint, hs]

/-- C5 (witness): instance with secret "k", `encrypt` prepending a zero
byte, `decrypt` dropping one byte. -/
theorem block_encryption_characterisation_witness :
    write_data none (fun l => 0 :: l) [5] = encodeUint32 [5].length ++ [5]
      ∧ write_data (some "") (fun l => 0 :: l) [5] = encodeUint32 [5].length ++ [5]
      ∧ write_data (some "k") (fun l => 0 :: l) [5]
          = encodeUint32 ((fun l => 0 :: l) [5]).length ++ (fun l => 0 :: l) [5]
      ∧ read_data (some "k") (fun l => l.drop 1) (encodeUint32 [7].length ++ ([7] ++ [1]))
          = .ok (some (if (some "k").isSome then [7].drop 1 else [7]), [1])
      ∧ read_data (some "k") (fun l => l.drop 1) (encodeUint32 0 ++ [1])
          = .ok (some [], [1]) :=
  block_encryption_characterisation (some "k") "k" (fun l => 0 :: l)
    (fun l => l.drop 1) [5] [7] [1] (by decide) (by decide) (by decide) (by decide)

theorem write_chunked_loop_step {pw : Option String} {enc : List Nat → List Nat}
    {fuel : Nat} {data : List Nat}
    (h : ¬ (data.take DEFAULT_CHUNK_SIZE).length = 0) :
    write_chunked_loop pw enc (fuel + 1) data
      = write_data pw enc (data.take DEFAULT_CHUNK_SIZE)
          ++ write_chunked_loop pw enc fuel (data.drop DEFAULT_CHUNK_SIZE) := by
  simp only [write_chunked_loop]
  rw [if_neg h]

theorem write_chunked_loop_nil {pw : Option String} {enc : List Nat → List Nat}
    {fuel : Nat} :
    write_chunked_loop pw enc (fuel + 1) [] = write_data pw enc [] := by
  simp [write_chunked_loop]

/-- One continuing iteration of the `read_chunked_data` loop. -/
theorem read_chunked_loop_step {pw : Option String} {dec : List Nat → List Nat}
    {fuel : Nat} {stream sink rest : List Nat} {c : Nat} {cs : List Nat}
    (h : read_data pw dec stream = .ok (some (c :: cs), rest)) :
    read_chunked_loop pw dec (fuel + 1) stream sink
      = read_chunked_loop pw dec fuel rest (sink ++ c :: cs) := by
  simp only [read_chunked_loop]
  rw [h]

/-- The `fp.write(None)` crash of the `read_chunked_data` loop when the
stream ends at a block boundary. -/
theorem read_chunked_loop_none {pw : Option String} {dec : List Nat → List Nat}
    {fuel : Nat} {stream sink rest : List Nat}
    (h : read_data pw dec stream = .ok (none, rest)) :
    read_chunked_loop pw dec (fuel + 1) stream sink = .error .typeError := by
  simp only [read_chunked_loop]
  rw [h]

/-- What `write_chunked_data` emits for the 8193-byte content: one data
block and the zero-length terminator (`write_data` of the empty chunk is
exactly `encodeUint32 0`). -/
theorem write_chunked_overContents :
    write_chunked_data none (fun b => b) overContents
      = encodeUint32 8193 ++ (overContents ++ encodeUint32 0) := by
  have hlen : overContents.length = 8193 := by
    simp only [overContents, List.length_replicate]
  have htake : overContents.take DEFAULT_CHUNK_SIZE = overContents :=
    List.take_of_length_le (by rw [hlen]; norm_num [DEFAULT_CHUNK_SIZE])
  have hdrop : overContents.drop DEFAULT_CHUNK_SIZE = [] :=
    List.drop_eq_nil_of_le (by rw [hlen]; norm_num [DEFAULT_CHUNK_SIZE])
  have hwd : ∀ (enc2 : List Nat → List Nat) (v : List Nat),
      write_data none enc2 v = encodeUint32 v.length ++ v := by
    intro enc2 v
    simp [write_data, pyTruthy, write_uint]
  unfold write_chunked_data
  rw [write_chunked_loop_step (by rw [htake, hlen]; omega)]
  rw [htake, hdrop, hlen]
  rw [show (8193 : Nat) = 8192 + 1 from rfl, write_chunked_loop_nil]
  rw [hwd, hwd, hlen]
  simp only [List.length_nil, List.append_nil, List.append_assoc]

/-- The receiving side of the same stream: `read_n_bytes(8193)` swallows the
terminator's 4 bytes along with the block (the over-read of
`readN_8193_over`), so the next `read_data` hits end-of-stream and returns
`None`, and `read_chunked_data` falls into `fp.write(None)` — a
`TypeError`. -/
theorem read_chunked_overStream :
    read_chunked_data none (fun b => b)
        (encodeUint32 8193 ++ (overContents ++ encodeUint32 0))
      = .error .typeError := by
  have hover : readN 8193 (overContents ++ encodeUint32 0)
      = .ok (overContents ++ encodeUint32 0) [] :=
    readN_8193_over 7 (encodeUint32 0) (by decide)
  have hcons : overContents ++ encodeUint32 0
      = 7 :: (List.replicate 8192 7 ++ encodeUint32 0) := rfl
  have hlen2 : (encodeUint32 8193 ++ (overContents ++ encodeUint32 0)).length
      = 8201 := by
    simp only [overContents, encodeUint32, List.length_append,
      List.length_replicate, List.length_cons, List.length_nil]
  have hrd : read_data none (fun b => b)
      (encodeUint32 8193 ++ (overContents ++ encodeUint32 0))
      = .ok (some (overContents ++ encodeUint32 0), []) := by
    unfold read_data
    rw [read_uint_append (encodeUint32_length _),
      beUint_encodeUint32 (by norm_num)]
    dsimp only
    rw [if_neg (by omega), hover]
    rfl
  have hrd2 : read_data none (fun b => b)
      (encodeUint32 8193 ++ (overContents ++ encodeUint32 0))
      = .ok (some (7 :: (List.replicate 8192 7 ++ encodeUint32 0)), []) := by
    rw [← hcons]
    exact hrd
  unfold read_chunked_data
  rw [hlen2, read_chunked_loop_step hrd2,
    show (8201 : Nat) = 8200 + 1 from rfl,
    read_chunked_loop_none read_data_nil]

/-- C8: the roundtrip `read_chunked_data ∘ write_chunked_data` is claimed to
reproduce every content exactly; for an 8193-byte content the reader
crashes instead (the final chunk's read swallows the terminator, then
`fp.write(None)` raises `TypeError`).  The writer half behaves as claimed —
`write_chunked_overContents` shows the emitted stream is the data block
followed by exactly one zero-length terminator — so the failure is entirely
the reader's over-read, i.e. `read_n_bytes`'s `chunk_size` slip. -/
theorem chunked_roundtrip_fails :
    read_chunked_data none (fun b => b)
        (write_chunked_data none (fun b => b) overContents)
      = .error .typeError
    ∧ read_chunked_data none (fun b => b)
        (write_chunked_data none (fun b => b) overContents)
      ≠ .ok (overContents, []) := by
  rw [write_chunked_overContents, read_chunked_overStream]
  exact ⟨rfl, fun h => Except.noConfusion h⟩

/-- C4: the claimed `decode(encode(m)) = m` invariant fails on the code for
a COPY_FILE message with an empty path and 8193 bytes of content: decoding
the encoded bytes raises `TypeError` (the content block's `read_n_bytes`
over-reads the stream terminator, after which `read_chunked_data` hits
end-of-stream and executes `fp.write(None)`), instead of yielding the
message back. -/
theorem copy_file_roundtrip_fails :
    recv_message none (fun b => b) (send_message none (fun b => b) overMsg)
      = .error .typeError
    ∧ recv_message none (fun b => b) (send_message none (fun b => b) overMsg)
      ≠ .ok (some (.COPY_FILE (some []) overContents), []) := by
  have hsend : send_message none (fun b => b) overMsg
      = encodeUint32 8 ++ ((encodeUint32 2 ++ [255, 254])
          ++ (encodeUint32 8193 ++ (overContents ++ encodeUint32 0))) := by
    have hws : write_string none (fun b => b) [] = encodeUint32 2 ++ [255, 254] := by
      decide
    simp only [send_message, send_parameters, overMsg, write_uint,
      SendMessage.command, ANP_COMMAND_COPY_FILE, hws, write_chunked_overContents]
  have hl8 : ANP_CLASS_LOOKUP 8 = some .COPY_FILE := by decide
  have hrs : read_string none (fun b => b)
      (encodeUint32 2 ++ ([255, 254]
        ++ (encodeUint32 8193 ++ (overContents ++ encodeUint32 0))))
      = .ok (some [], encodeUint32 8193 ++ (overContents ++ encodeUint32 0)) := by
    have hd : read_data none (fun b => b)
        (encodeUint32 2 ++ ([255, 254]
          ++ (encodeUint32 8193 ++ (overContents ++ encodeUint32 0))))
        = .ok (some [255, 254],
            encodeUint32 8193 ++ (overContents ++ encodeUint32 0)) :=
      @read_data_block none (fun b => b) [255, 254]
        (encodeUint32 8193 ++ (overContents ++ encodeUint32 0))
        (by decide) (by decide) (by decide)
    unfold read_string
    rw [hd]
    dsimp only
    rw [show pyDecodeUtf16 [255, 254] = .ok [] from by decide]
  have hdecode : recv_message none (fun b => b)
      (send_message none (fun b => b) overMsg) = .error .typeError := by
    rw [hsend, List.append_assoc (encodeUint32 2)]
    rw [recv_message_append (by norm_num), hl8]
    dsimp only
    simp only [recv_parameters]
    rw [hrs]
    dsimp only
    rw [read_chunked_overStream]
  exact ⟨hdecode, by rw [hdecode]; simp⟩

/-- C2: the spec claims `read_n_bytes(n)` returns exactly `n` bytes and never
consumes or returns bytes beyond the `n` requested, for any pattern of short
underlying reads.  The code computes `chunk_size` from `count` instead of
from `bytes_left`, so after a short read the next `recv` may return more
bytes than are still needed: with `count = 10` and a kernel that delivers 4
bytes, then 10, `read_n_bytes` consumes and returns all 14 bytes.  The
function's own docstring ("Read N bytes from the socket.") says otherwise:
this is a code bug, exhibited here by evaluating the embedded loop. -/
theorem read_n_bytes_over_reads :
    read_n_bytes 10 [4, 10] [0, 1, 2, 3, 4, 5, 6, 7, 8, 9, 10, 11, 12, 13]
      = .ok [0, 1, 2, 3, 4, 5, 6, 7, 8, 9, 10, 11, 12, 13] []
    ∧ ([0, 1, 2, 3, 4, 5, 6, 7, 8, 9, 10, 11, 12, 13] : List Nat).length = 14 := by
  constructor
  · decide
  · decide

end ANP
